import Mathlib

/-!
Shallow embedding of the numerical core of the MAS/MWY hydrate-desalination
calculator (src/app.js).  JavaScript numbers are modelled as exact rationals;
a JS computation that produces a non-finite number (Infinity / NaN) at a
division is modelled by tracking the vanishing of the denominator explicitly
at each guard that inspects finiteness.  A NaN produced by arithmetic on
`undefined` (after a lookup that resolves to an inherited Object.prototype
member) is modelled as `none`.  JS exceptions are modelled with
`Option` / `Except`.
-/

namespace HLS

/-- Water activity correlation coefficient B1 (src/app.js line 14). -/
def B1 : ℚ := -1.06152

/-- Water activity correlation coefficient B2 (src/app.js line 15). -/
def B2 : ℚ := 3.25726

/-- Water activity correlation coefficient B3 (src/app.js line 16). -/
def B3 : ℚ := -37.2263

/-- Molar mass of pure water in g/mol (src/app.js line 19). -/
def WATER_MOLAR_MASS : ℚ := 18.01528

/-- Structure II correction coefficient (src/app.js line 105). -/
def ALPHA_SII : ℚ := 0.927

/-- Salt catalog keys (src/app.js `saltProps`, lines 25-40). -/
inductive Salt
  | NaCl
  | KCl
  | MgCl2
  deriving DecidableEq, Repr

/-- Molar mass of each catalog salt (src/app.js lines 27, 32, 36). -/
def saltMolarMass : Salt → ℚ
  | Salt.NaCl => 58.44
  | Salt.KCl => 74.55
  | Salt.MgCl2 => 95.21

/-- Number of ionic species of each catalog salt (src/app.js lines 29, 33, 38). -/
def saltIonCount : Salt → ℕ
  | Salt.NaCl => 2
  | Salt.KCl => 2
  | Salt.MgCl2 => 3

/-- Own-property lookup on the JS `saltProps` object literal
(src/app.js lines 25-40): only the three catalog keys are own
properties. -/
def parseSaltKey (key : String) : Option Salt :=
  if key = "NaCl" then some Salt.NaCl
  else if key = "KCl" then some Salt.KCl
  else if key = "MgCl2" then some Salt.MgCl2
  else none

/-- Own property names of `Object.prototype`.  A JS lookup
`saltProps[saltKey]` on the object literal resolves these keys to
inherited members (functions, or the prototype itself for "__proto__"),
so the destructuring `const { molarMass, ionCount } = saltProps[saltKey]`
succeeds with both fields `undefined` instead of throwing. -/
def objectProtoKeys : List String :=
  ["constructor", "hasOwnProperty", "isPrototypeOf", "propertyIsEnumerable",
   "toLocaleString", "toString", "valueOf", "__proto__",
   "__defineGetter__", "__defineSetter__", "__lookupGetter__", "__lookupSetter__"]

/-- Error taxonomy of the spec (section 7). -/
inductive CalcError
  | UnknownSpecies
  | NoReferenceData
  | InvalidRange
  | NoFeasiblePoints
  deriving DecidableEq, Repr

/-- Effective ionic mole fraction X from salinity, for a resolved catalog
salt (src/app.js `computeXFromSalinity`, lines 646-661, after the
`saltProps[saltKey]` lookup succeeded). -/
def xFromSalinity (salinity : ℚ) (salt : Salt) : ℚ :=
  let molarMass := saltMolarMass salt
  let massSalt := salinity
  let massWater := 100 - salinity
  let molesSalt := massSalt / molarMass
  let molesWater := massWater / WATER_MOLAR_MASS
  if salt = Salt.MgCl2 then
    let totalMoles := molesWater + 3 * molesSalt
    (4 * molesSalt) / totalMoles
  else
    let totalMoles := molesWater + 2 * molesSalt
    (2 * molesSalt) / totalMoles

/-- Salinity (wt%) from X for a resolved catalog salt
(src/app.js `computeSalinityFromX`, lines 704-719). -/
def salinityFromX (X : ℚ) (salt : Salt) : ℚ :=
  let molarMass := saltMolarMass salt
  if salt = Salt.MgCl2 then
    (molarMass * X * 100) / ((4 - 3 * X) * WATER_MOLAR_MASS + molarMass * X)
  else
    (molarMass * X * 100) / ((2 - 2 * X) * WATER_MOLAR_MASS + molarMass * X)

/-- String-keyed salinity-to-X conversion (src/app.js lines 646-661).
For a catalog key the conversion runs; for a key that is an inherited
`Object.prototype` member the destructuring succeeds with `undefined`
fields and the arithmetic returns NaN (`Except.ok none`); for any other
key `saltProps[saltKey]` is `undefined` and the destructuring throws a
TypeError, the failure the spec's taxonomy names `UnknownSpecies`. -/
def computeXFromSalinity (salinity : ℚ) (saltKey : String) :
    Except CalcError (Option ℚ) :=
  match parseSaltKey saltKey with
  | some salt => Except.ok (some (xFromSalinity salinity salt))
  | none =>
    if objectProtoKeys.contains saltKey then Except.ok none
    else Except.error CalcError.UnknownSpecies

/-- String-keyed X-to-salinity conversion (src/app.js lines 704-719),
with the same lookup semantics as `computeXFromSalinity`; a NaN input
(`none`) propagates through the arithmetic to a NaN output. -/
def computeSalinityFromX (X : Option ℚ) (saltKey : String) :
    Except CalcError (Option ℚ) :=
  match parseSaltKey saltKey with
  | some salt => Except.ok (X.map (fun x => salinityFromX x salt))
  | none =>
    if objectProtoKeys.contains saltKey then Except.ok none
    else Except.error CalcError.UnknownSpecies

/-- HLS water-activity correlation ln(a_w) from X
(src/app.js `computeLnawFromX`, lines 664-666). -/
def computeLnawFromX (X : ℚ) : ℚ :=
  B1 * X + B2 * X * X + B3 * X * X * X

/-- Supercooling from ln(a_w), beta and T0
(src/app.js `computeDeltaT`, lines 669-671). -/
def computeDeltaT (beta lnaw T0 : ℚ) : ℚ :=
  (beta * lnaw * T0 * T0) / (1 + beta * lnaw * T0)

/-- Inverse relation: ln(a_w) from supercooling
(src/app.js `computeLnawFromDelta`, lines 674-677). -/
def computeLnawFromDelta (beta dT T0 : ℚ) : ℚ :=
  let denominator := beta * T0 * (T0 - dT)
  dT / denominator

/-- Bracket-expansion loop of the bisection solver (src/app.js lines 687-689):
`while (f(high) > 0 && high < 1) high += 0.1`.  Starting from high = 0.2 the
loop body runs at most 8 times before `high < 1` fails, so a fuel of 9 makes
the recursion exactly the JS while loop. -/
def expandHigh (lnawTarget : ℚ) : ℕ → ℚ → ℚ
  | 0, high => high
  | n + 1, high =>
    if computeLnawFromX high - lnawTarget > 0 ∧ high < 1 then
      expandHigh lnawTarget n (high + 1 / 10)
    else high

/-- Bisection loop of the solver (src/app.js lines 691-699), returning the
final (low, high) bracket after the given number of iterations. -/
def bisect (lnawTarget : ℚ) : ℕ → ℚ → ℚ → ℚ × ℚ
  | 0, low, high => (low, high)
  | n + 1, low, high =>
    let mid := (low + high) / 2
    if computeLnawFromX mid - lnawTarget > 0 then
      bisect lnawTarget n mid high
    else
      bisect lnawTarget n low mid

/-- Bisection inversion of the activity correlation
(src/app.js `solveXFromLnaw`, lines 680-701): bracket low = 0, high = 0.2,
expand, then exactly 50 bisection iterations, return the bracket midpoint. -/
def solveXFromLnaw (lnawTarget : ℚ) : ℚ :=
  let high := expandHigh lnawTarget 9 (2 / 10)
  let lh := bisect lnawTarget 50 0 high
  (lh.1 + lh.2) / 2

/-- Mass-balance water yield for a 100 g basis
(src/app.js lines 813-814 and 832-835): saltGrams = initialSalinity,
waterGrams = 100 - initialSalinity, totalWaterNeeded = saltGrams*(100/mas - 1),
waterInHydrate = waterGrams - totalWaterNeeded,
MWY = waterInHydrate / waterGrams * 100. -/
def massBalanceMWY (initialSalinity mas : ℚ) : ℚ :=
  let saltGrams := initialSalinity
  let waterGrams := 100 - initialSalinity
  let totalWaterNeeded := saltGrams * (100 / mas - 1)
  let waterInHydrate := waterGrams - totalWaterNeeded
  waterInHydrate / waterGrams * 100

/-- Extra supercooling at step i of the 1-D sweep (src/app.js line 818). -/
def stepDTExtra (dTmin stepSize : ℚ) (i : ℕ) : ℚ :=
  dTmin + stepSize * i

/-- Total supercooling at step i of the 1-D sweep (src/app.js line 819). -/
def stepDTTotal (dTInit dTmin stepSize : ℚ) (i : ℕ) : ℚ :=
  dTInit + stepDTExtra dTmin stepSize i

/-- Denominator of the inverse activity at step i (src/app.js line 675);
the JS value `lnawMas` is finite exactly when this is nonzero. -/
def stepLnawDen (beta T0 dTInit dTmin stepSize : ℚ) (i : ℕ) : ℚ :=
  beta * T0 * (T0 - stepDTTotal dTInit dTmin stepSize i)

/-- Inverse ln(a_w) at step i of the 1-D sweep (src/app.js line 822). -/
def stepLnawMas (beta T0 dTInit dTmin stepSize : ℚ) (i : ℕ) : ℚ :=
  computeLnawFromDelta beta (stepDTTotal dTInit dTmin stepSize i) T0

/-- Candidate MAS at step i of the 1-D sweep (src/app.js lines 827-828). -/
def stepMAS (beta T0 dTInit dTmin stepSize : ℚ) (salt : Salt) (i : ℕ) : ℚ :=
  salinityFromX (solveXFromLnaw (stepLnawMas beta T0 dTInit dTmin stepSize i)) salt

/-- One emitted point of the 1-D sweep (spec section 3, `SweepPoint`;
src/app.js lines 866-880). -/
structure SweepPoint where
  dTExtra : ℚ
  totalSupercooling : ℚ
  X : ℚ
  lnaw : ℚ
  mas : ℚ
  mwy : ℚ
  saltG : ℚ
  waterG : ℚ
  deriving DecidableEq, Repr, Inhabited

/-- Body of the 1-D sweep loop at index i (src/app.js lines 816-881).
`none` models `continue`.  The guard `!isFinite(lnawMas) || lnawMas >= 0`
is modelled by the denominator-zero test (non-finite) followed by the sign
test; the guard `!isFinite(mas) || mas <= 0` is modelled by `mas ≤ 0`,
which also covers the denominator-zero case since a vanishing denominator
yields 0 in ℚ where JS yields a non-finite value - both are skipped. -/
def sweepStep (beta T0 dTInit dTmin stepSize : ℚ) (salt : Salt) (s0 : ℚ)
    (i : ℕ) : Option SweepPoint :=
  let dTTotal := stepDTTotal dTInit dTmin stepSize i
  if T0 ≤ dTTotal then none
  else if stepLnawDen beta T0 dTInit dTmin stepSize i = 0 then none
  else
    let lnawMas := stepLnawMas beta T0 dTInit dTmin stepSize i
    if 0 ≤ lnawMas then none
    else
      let Xmas := solveXFromLnaw lnawMas
      let mas := salinityFromX Xmas salt
      if mas ≤ 0 then none
      else some {
        dTExtra := stepDTExtra dTmin stepSize i
        totalSupercooling := dTTotal
        X := Xmas
        lnaw := lnawMas
        mas := mas
        mwy := massBalanceMWY s0 mas
        saltG := s0
        waterG := 100 - s0 }

/-- Emitted point sequence of the 1-D sweep: nPoints = 50 and
step = (dTmax - dTmin) / (nPoints - 1) (src/app.js lines 794, 811, 816). -/
def sweepPoints (beta T0 dTInit dTmin dTmax : ℚ) (salt : Salt) (s0 : ℚ) :
    List SweepPoint :=
  (List.range 50).filterMap
    (sweepStep beta T0 dTInit dTmin ((dTmax - dTmin) / 49) salt s0)

/-- Outcome of the 1-D sweep: the `NoFeasiblePoints` failure is raised
exactly when the emitted sequence is empty (src/app.js lines 883-886). -/
def sweepResult (beta T0 dTInit dTmin dTmax : ℚ) (salt : Salt) (s0 : ℚ) :
    Except CalcError (List SweepPoint) :=
  let pts := sweepPoints beta T0 dTInit dTmin dTmax salt s0
  if pts.isEmpty then Except.error CalcError.NoFeasiblePoints else Except.ok pts

/-- Full 1-D sweep from operating inputs: the initial supercooling is
computed from the initial salinity (src/app.js lines 789-792) and the
loop of lines 816-881 is run. -/
def calcSweep (beta T0 : ℚ) (salt : Salt) (s0 dTmin dTmax : ℚ) :
    List SweepPoint :=
  sweepPoints beta T0
    (computeDeltaT beta (computeLnawFromX (xFromSalinity s0 salt)) T0)
    dTmin dTmax salt s0

/-- Initial-salinity equilibrium supercooling of a heatmap column
(src/app.js lines 1340-1342). -/
def cellDTInit (beta T0 : ℚ) (salt : Salt) (sInit : ℚ) : ℚ :=
  computeDeltaT beta (computeLnawFromX (xFromSalinity sInit salt)) T0

/-- Implied total supercooling of a heatmap cell (src/app.js line 1347). -/
def cellDTTotal (T0 Tform : ℚ) : ℚ :=
  max 0 (T0 - Tform)

/-- Inverse ln(a_w) of a heatmap cell (src/app.js line 1349). -/
def cellLnawMas (beta T0 Tform : ℚ) : ℚ :=
  computeLnawFromDelta beta (cellDTTotal T0 Tform) T0

/-- Candidate MAS of a heatmap cell (src/app.js lines 1351-1352). -/
def cellMAS (beta T0 : ℚ) (salt : Salt) (Tform : ℚ) : ℚ :=
  salinityFromX (solveXFromLnaw (cellLnawMas beta T0 Tform)) salt

/-- MWY value of one cell of the 2-D grid sweep
(src/app.js `generateParametricHeatmaps`, lines 1343-1360): default 0;
inside the feasible band the clamped value of ((mas - sInit)/mas)*100.
The finiteness guards on `lnawMas` and `mas` are modelled as for the
1-D sweep. -/
def heatmapCellMWY (beta T0 : ℚ) (salt : Salt) (sInit Tform : ℚ) : ℚ :=
  let dTTotal := cellDTTotal T0 Tform
  if cellDTInit beta T0 salt sInit ≤ dTTotal ∧ dTTotal < T0 then
    if beta * T0 * (T0 - dTTotal) ≠ 0 ∧ cellLnawMas beta T0 Tform < 0 then
      let mas := cellMAS beta T0 salt Tform
      if 0 < mas then max 0 (min 100 ((mas - sInit) / mas * 100)) else 0
    else 0
  else 0

/-- MAS value of one cell of the 2-D grid sweep (src/app.js lines 1345,
1353-1354): the cell's candidate MAS where the chain succeeds, otherwise
the initial salinity. -/
def heatmapCellMAS (beta T0 : ℚ) (salt : Salt) (sInit Tform : ℚ) : ℚ :=
  let dTTotal := cellDTTotal T0 Tform
  if cellDTInit beta T0 salt sInit ≤ dTTotal ∧ dTTotal < T0 then
    if beta * T0 * (T0 - dTTotal) ≠ 0 ∧ cellLnawMas beta T0 Tform < 0 then
      let mas := cellMAS beta T0 salt Tform
      if 0 < mas then mas else sInit
    else sInit
  else sInit

/-- Power sums S[i] = sum over samples of x^i, i = 0..2d
(src/app.js lines 523-527). -/
def powerSums (xs : List ℚ) (d : ℕ) : List ℚ :=
  (List.range (2 * d + 1)).map (fun i => (xs.map (fun x => x ^ i)).sum)

/-- Normal-equation matrix A[i][j] = S[i+j] (src/app.js lines 528-531). -/
def normalMatrix (S : List ℚ) (d : ℕ) : List (List ℚ) :=
  (List.range (d + 1)).map (fun i => (List.range (d + 1)).map (fun j => S.getD (i + j) 0))

/-- Right-hand side b[i] = sum over samples of y*x^i
(src/app.js lines 532-535). -/
def momentVector (xs ys : List ℚ) (d : ℕ) : List ℚ :=
  (List.range (d + 1)).map (fun i => ((ys.zip xs).map (fun p => p.1 * p.2 ^ i)).sum)

/-- Partial-pivot row selection for column i: the first row r in i..d whose
|A[r][i]| strictly exceeds the current maximum (src/app.js lines 539-540). -/
def pivotIndex (A : List (List ℚ)) (d i : ℕ) : ℕ :=
  (List.range' (i + 1) (d - i)).foldl
    (fun m r => if |(A.getD r []).getD i 0| > |(A.getD m []).getD i 0| then r else m) i

/-- One iteration of the Gauss-Jordan elimination loop
(src/app.js lines 538-551): select the pivot row, swap it into place,
scale row i and c[i] by the pivot (substituting 1e-12 when the diagonal
entry is exactly zero, line 542), and eliminate column i from every other
row.  The divisions by the pivot are guarded: the iteration yields `none`
if the pivot is zero, so that totality of the fit expresses that no
division by zero ever occurs. -/
def elimStep (d : ℕ) (st : List (List ℚ) × List ℚ) (i : ℕ) :
    Option (List (List ℚ) × List ℚ) :=
  let A := st.1
  let c := st.2
  let maxRow := pivotIndex A d i
  let A1 := (A.set i (A.getD maxRow [])).set maxRow (A.getD i [])
  let c1 := (c.set i (c.getD maxRow 0)).set maxRow (c.getD i 0)
  let diag := (A1.getD i []).getD i 0
  let pivot := if diag = 0 then (1 : ℚ) / 1000000000000 else diag
  if pivot = 0 then none
  else
    let rowi := (A1.getD i []).mapIdx (fun j a => if i ≤ j then a / pivot else a)
    let ci := c1.getD i 0 / pivot
    let A2 := A1.set i rowi
    let c2 := c1.set i ci
    let A3 := A2.mapIdx (fun r row =>
      if r = i then row
      else row.mapIdx (fun j a =>
        if i ≤ j then a - row.getD i 0 * rowi.getD j 0 else a))
    let c3 := c2.mapIdx (fun r cv =>
      if r = i then cv
      else cv - (A2.getD r []).getD i 0 * ci)
    some (A3, c3)

/-- Least-squares polynomial fit (src/app.js `fitPolynomial`, lines
520-553).  For an empty sample list the JS code executes
`new Array(2 * (0 - 1) + 1)`, i.e. `new Array(-1)`, which throws a
RangeError; that failure is `none`.  Otherwise the normal equations are
built and solved by the guarded elimination loop. -/
def fitPolynomial (xs ys : List ℚ) (degree : ℕ) : Option (List ℚ) :=
  if xs.length = 0 then none
  else
    let d := min degree (xs.length - 1)
    let A := normalMatrix (powerSums xs d) d
    let b := momentVector xs ys d
    ((List.range (d + 1)).foldlM (elimStep d) (A, b)).map Prod.snd

/-- Polynomial evaluation y = sum of coeffs[i] * x^i
(src/app.js `evalPolynomial`, lines 554-558), as the source's
accumulator loop over (y, xp). -/
def evalPolynomial (coeffs : List ℚ) (x : ℚ) : ℚ :=
  (coeffs.foldl (fun (acc : ℚ × ℚ) ci => (acc.1 + ci * acc.2, acc.2 * x)) (0, 1)).1

/-- Fitted monotone-spline model {x, y, h, d}
(src/app.js `buildMonotoneSpline` return value, line 614). -/
structure SplineFit where
  x : List ℚ
  y : List ℚ
  h : List ℚ
  d : List ℚ
  deriving DecidableEq, Repr

/-- Monotone cubic (PCHIP-like) spline construction
(src/app.js `buildMonotoneSpline`, lines 593-615).  Out-of-range JS index
reads (only reachable for a single-point input, whose derivatives are
never used by evaluation) are modelled with default 0. -/
def buildMonotoneSpline (x y : List ℚ) : SplineFit :=
  let n := x.length
  let h := (List.range (n - 1)).map (fun i => x.getD (i + 1) 0 - x.getD i 0)
  let delta := (List.range (n - 1)).map
    (fun i => (y.getD (i + 1) 0 - y.getD i 0) / h.getD i 0)
  let d :=
    if n = 2 then [delta.getD 0 0, delta.getD 0 0]
    else (List.range n).map (fun i =>
      if i = 0 then
        let d0 := ((2 * h.getD 0 0 + h.getD 1 0) * delta.getD 0 0 -
          h.getD 0 0 * delta.getD 1 0) / (h.getD 0 0 + h.getD 1 0)
        if d0 * delta.getD 0 0 ≤ 0 then 0
        else if |d0| > 3 * |delta.getD 0 0| then 3 * delta.getD 0 0
        else d0
      else if i = n - 1 then
        let dn := ((2 * h.getD (n - 2) 0 + h.getD (n - 3) 0) * delta.getD (n - 2) 0 -
          h.getD (n - 2) 0 * delta.getD (n - 3) 0) / (h.getD (n - 2) 0 + h.getD (n - 3) 0)
        if dn * delta.getD (n - 2) 0 ≤ 0 then 0
        else if |dn| > 3 * |delta.getD (n - 2) 0| then 3 * delta.getD (n - 2) 0
        else dn
      else
        if delta.getD (i - 1) 0 * delta.getD i 0 ≤ 0 then 0
        else
          let w1 := 2 * h.getD i 0 + h.getD (i - 1) 0
          let w2 := h.getD i 0 + 2 * h.getD (i - 1) 0
          (w1 + w2) / (w1 / delta.getD (i - 1) 0 + w2 / delta.getD i 0))
  { x := x, y := y, h := h, d := d }

/-- Segment search of the spline evaluator (src/app.js line 619):
`i = 0; while (i < n - 1 && xp > x[i + 1]) i++`.  The fuel argument is the
number of knots, an upper bound on the loop's iterations. -/
def splineSegAux (x : List ℚ) (xp : ℚ) : ℕ → ℕ → ℕ
  | 0, i => i
  | fuel + 1, i =>
    if i < x.length - 1 ∧ x.getD (i + 1) 0 < xp then splineSegAux x xp fuel (i + 1)
    else i

/-- Monotone-spline evaluation with endpoint clamping
(src/app.js `evalMonotoneSpline`, lines 616-626). -/
def evalMonotoneSpline (s : SplineFit) (xp : ℚ) : ℚ :=
  let n := s.x.length
  if xp ≤ s.x.getD 0 0 then s.y.getD 0 0
  else if s.x.getD (n - 1) 0 ≤ xp then s.y.getD (n - 1) 0
  else
    let i := splineSegAux s.x xp n 0
    let t := (xp - s.x.getD i 0) / s.h.getD i 0
    let h00 := (1 + 2 * t) * (1 - t) * (1 - t)
    let h10 := t * (1 - t) * (1 - t)
    let h01 := t * t * (3 - 2 * t)
    let h11 := t * t * (t - 1)
    h00 * s.y.getD i 0 + h10 * s.h.getD i 0 * s.d.getD i 0 +
      h01 * s.y.getD (i + 1) 0 + h11 * s.h.getD i 0 * s.d.getD (i + 1) 0

/-- One gas catalog entry (src/app.js `gasData`, lines 43-102).  The
source field `structure` is a Lean keyword and is rendered `struct`;
`data` holds (temperatureK, pressureMPa) pairs; `t0Atm` is the CP
variant's fixed `t0_atm` reference temperature.  CP's measured `ts_data`
overlay table feeds only the excluded chart layer and is not modelled. -/
structure GasEntry where
  struct : String
  betaX : ℚ
  data : List (ℚ × ℚ)
  t0Atm : Option ℚ
  deriving DecidableEq, Repr

/-- Built-in gas catalog (src/app.js lines 43-102). -/
def gasData (key : String) : Option GasEntry :=
  if key = "CH4" then some
    { struct := "sI", betaX := -0.9115, t0Atm := none, data :=
      [(273.4, 2.68), (274.6, 3.05), (276.7, 3.72), (278.3, 4.39),
       (279.6, 5.02), (280.9, 5.77), (282.3, 6.65), (283.6, 7.59),
       (284.7, 8.55), (285.7, 9.17), (286.4, 10.5)] }
  else if key = "C2H6" then some
    { struct := "sI", betaX := -0.8657, t0Atm := none, data :=
      [(273.7055556, 0.51021204),
       (274.8166667, 0.579159613),
       (275.9277778, 0.661896701),
       (277.5944444, 0.813581361),
       (278.7055556, 0.930792236),
       (279.2611111, 1.006634566),
       (279.8166667, 1.082476896),
       (280.3722222, 1.165213984),
       (280.9277778, 1.254845829),
       (281.4833333, 1.344477674),
       (282.0388889, 1.447899033),
       (282.5944444, 1.55821515),
       (283.15, 1.689215539),
       (284.2611111, 1.985690102),
       (285.3722222, 2.302848938),
       (286.4833333, 2.730323891)] }
  else if key = "C3H8" then some
    { struct := "sII", betaX := -1.0582, t0Atm := none, data :=
      [(273.6, 0.207), (274.6, 0.248), (276.2, 0.338), (277.2, 0.417), (278.0, 0.51)] }
  else if key = "CO2" then some
    { struct := "sI", betaX := -0.9143, t0Atm := none, data :=
      [(274.3, 1.42), (275.5, 1.63), (276.8, 1.9), (277.6, 2.11), (279.1, 2.55),
       (280.6, 3.12), (281.5, 3.51), (282.1, 3.81), (282.9, 4.37)] }
  else if key = "CP" then some
    { struct := "sII", betaX := -1.2426, t0Atm := some 280.15, data := [] }
  else none

/-- Gas resolution (src/app.js `getGasObject`, lines 559-568): the
`Custom` key uses the caller-supplied user-defined entry, other keys the
built-in catalog. -/
def getGasObject (gasKey : String) (custom : GasEntry) : Option GasEntry :=
  if gasKey = "Custom" then some custom else gasData gasKey

/-- Effective beta with an explicit structure-II correction flag
(src/app.js `computeBetaCustom`, lines 638-643); `none` models the JS
TypeError on an unknown gas key. -/
def computeBetaCustom (gasKey : String) (useAlphaFlag : Bool) (custom : GasEntry) :
    Option ℚ :=
  (getGasObject gasKey custom).map (fun gas =>
    gas.betaX * (1 / 1000) * (if gas.struct = "sII" ∧ useAlphaFlag then ALPHA_SII else 1))

/-- Process-wide fit caches: `poly` models `t0FitCache` (src/app.js line
519), `spline` models `getT0AtPressure._splineCache` (line 579-580),
both keyed by gas key. -/
structure FitCaches where
  poly : List (String × List ℚ)
  spline : List (String × SplineFit)
  deriving DecidableEq, Repr

/-- Empty initial cache state (both JS caches start as `{}`). -/
def emptyCaches : FitCaches :=
  { poly := [], spline := [] }

/-- Reference temperature T0 at a pressure (src/app.js `getT0AtPressure`,
lines 569-590), with the mutated global caches threaded explicitly.
`none` models a NaN return (unknown gas or no reference points). -/
def getT0AtPressure (caches : FitCaches) (gasKey : String) (P : ℚ)
    (method : String) (custom : GasEntry) : Option ℚ × FitCaches :=
  match getGasObject gasKey custom with
  | none => (none, caches)
  | some gas =>
    if gasKey = "CP" then (gas.t0Atm, caches)
    else
      let pts := gas.data
      if pts.isEmpty then (none, caches)
      else
        let xs := pts.map Prod.snd
        let ys := pts.map Prod.fst
        if method = "spline" then
          match caches.spline.lookup gasKey with
          | some sp => (some (evalMonotoneSpline sp P), caches)
          | none =>
            let sp := buildMonotoneSpline xs ys
            (some (evalMonotoneSpline sp P),
              { caches with spline := (gasKey, sp) :: caches.spline })
        else
          match caches.poly.lookup gasKey with
          | some coeffs => (some (evalPolynomial coeffs P), caches)
          | none =>
            match fitPolynomial xs ys (min 3 (xs.length - 1)) with
            | none => (none, caches)
            | some coeffs => (some (evalPolynomial coeffs P),
                { caches with poly := (gasKey, coeffs) :: caches.poly })

/-!
Helper lemmas shared by several claims.
-/

/-- Correlation coefficients written as plain fractions, for the
arithmetic tactics. -/
theorem computeLnawFromX_eq (X : ℚ) :
    computeLnawFromX X =
      (-106152 / 100000) * X + (325726 / 100000) * X * X +
        (-372263 / 10000) * X * X * X := by
  norm_num [computeLnawFromX, B1, B2, B3]

/-- The activity correlation is strictly decreasing on all of ℚ (its
derivative's discriminant is negative). -/
theorem computeLnawFromX_anti (a b : ℚ) (h : a < b) :
    computeLnawFromX b < computeLnawFromX a := by
  rw [computeLnawFromX_eq, computeLnawFromX_eq]
  nlinarith [mul_nonneg (le_of_lt (sub_pos.mpr h)) (sq_nonneg (a + b - 325726 / 5583445)),
    mul_nonneg (le_of_lt (sub_pos.mpr h)) (sq_nonneg (a - b)), sub_pos.mpr h]

/-- Weak form of the antitonicity of the activity correlation. -/
theorem computeLnawFromX_anti_le (a b : ℚ) (h : a ≤ b) :
    computeLnawFromX b ≤ computeLnawFromX a := by
  rcases eq_or_lt_of_le h with rfl | h
  · exact le_refl _
  · exact le_of_lt (computeLnawFromX_anti a b h)

/-- Round-trip identity for a two-ionic-species salt of molar mass M. -/
theorem roundtrip_twoIon (M s : ℚ) (hM : 0 < M) (h0 : 0 < s) (h1 : s < 100) :
    (M * ((2 * (s / M)) / ((100 - s) / WATER_MOLAR_MASS + 2 * (s / M))) * 100) /
      ((2 - 2 * ((2 * (s / M)) / ((100 - s) / WATER_MOLAR_MASS + 2 * (s / M)))) * WATER_MOLAR_MASS +
        M * ((2 * (s / M)) / ((100 - s) / WATER_MOLAR_MASS + 2 * (s / M)))) = s := by
  have hW : (0:ℚ) < WATER_MOLAR_MASS := by norm_num [WATER_MOLAR_MASS]
  have ha : 0 < s / M := div_pos h0 hM
  have hw : 0 < (100 - s) / WATER_MOLAR_MASS := div_pos (by linarith) hW
  have hD1 : 0 < (100 - s) / WATER_MOLAR_MASS + 2 * (s / M) := by linarith
  set X := (2 * (s / M)) / ((100 - s) / WATER_MOLAR_MASS + 2 * (s / M)) with hX
  have hX1 : X < 1 := by
    rw [hX, div_lt_one hD1]
    linarith
  have hX0 : 0 < X := div_pos (by linarith) hD1
  have hD2 : 0 < (2 - 2 * X) * WATER_MOLAR_MASS + M * X := by
    have t1 := mul_pos (by linarith : (0:ℚ) < 2 - 2 * X) hW
    have t2 := mul_pos hM hX0
    linarith
  have key : X * (M * (100 - s) + 2 * s * WATER_MOLAR_MASS) = 2 * s * WATER_MOLAR_MASS := by
    rw [hX, div_mul_eq_mul_div, div_eq_iff (ne_of_gt hD1)]
    field_simp
    ring
  rw [div_eq_iff (ne_of_gt hD2)]
  linear_combination key

/-- Round-trip identity for the three-ionic-species salt of molar mass M. -/
theorem roundtrip_threeIon (M s : ℚ) (hM : 0 < M) (h0 : 0 < s) (h1 : s < 100) :
    (M * ((4 * (s / M)) / ((100 - s) / WATER_MOLAR_MASS + 3 * (s / M))) * 100) /
      ((4 - 3 * ((4 * (s / M)) / ((100 - s) / WATER_MOLAR_MASS + 3 * (s / M)))) * WATER_MOLAR_MASS +
        M * ((4 * (s / M)) / ((100 - s) / WATER_MOLAR_MASS + 3 * (s / M)))) = s := by
  have hW : (0:ℚ) < WATER_MOLAR_MASS := by norm_num [WATER_MOLAR_MASS]
  have ha : 0 < s / M := div_pos h0 hM
  have hw : 0 < (100 - s) / WATER_MOLAR_MASS := div_pos (by linarith) hW
  have hD1 : 0 < (100 - s) / WATER_MOLAR_MASS + 3 * (s / M) := by linarith
  set X := (4 * (s / M)) / ((100 - s) / WATER_MOLAR_MASS + 3 * (s / M)) with hX
  have hX1 : X < 4 / 3 := by
    rw [hX, div_lt_iff₀ hD1]
    linarith
  have hX0 : 0 < X := div_pos (by linarith) hD1
  have hD2 : 0 < (4 - 3 * X) * WATER_MOLAR_MASS + M * X := by
    have t1 := mul_pos (by linarith : (0:ℚ) < 4 - 3 * X) hW
    have t2 := mul_pos hM hX0
    linarith
  have key : X * (M * (100 - s) + 3 * s * WATER_MOLAR_MASS) = 4 * s * WATER_MOLAR_MASS := by
    rw [hX, div_mul_eq_mul_div, div_eq_iff (ne_of_gt hD1)]
    field_simp
    ring
  rw [div_eq_iff (ne_of_gt hD2)]
  linear_combination key

/-- Exact round-trip of the salinity/mole-fraction conversion for every
catalog salt. -/
theorem roundtrip_salt (salt : Salt) (s : ℚ) (h0 : 0 < s) (h1 : s < 100) :
    salinityFromX (xFromSalinity s salt) salt = s := by
  cases salt
  case NaCl => exact roundtrip_twoIon 58.44 s (by norm_num) h0 h1
  case KCl => exact roundtrip_twoIon 74.55 s (by norm_num) h0 h1
  case MgCl2 => exact roundtrip_threeIon 95.21 s (by norm_num) h0 h1

/-!
Claim theorems.
-/

/-- C3: for every salt key in the catalog (NaCl, KCl, MgCl2) and every
salinity s in (0,100), converting to X and back returns exactly s - in
particular within 1e-9 relative and 1e-6 absolute error as claimed. -/
theorem c3_roundtrip (saltKey : String) (s : ℚ)
    (hk : saltKey = "NaCl" ∨ saltKey = "KCl" ∨ saltKey = "MgCl2")
    (h0 : 0 < s) (h1 : s < 100) :
    (computeXFromSalinity s saltKey).bind (fun x => computeSalinityFromX x saltKey) =
      Except.ok (some s) := by
  rcases hk with rfl | rfl | rfl
  · show Except.ok (some (salinityFromX (xFromSalinity s Salt.NaCl) Salt.NaCl)) =
      Except.ok (some s)
    exact congrArg (fun r => Except.ok (some r)) (roundtrip_salt Salt.NaCl s h0 h1)
  · show Except.ok (some (salinityFromX (xFromSalinity s Salt.KCl) Salt.KCl)) =
      Except.ok (some s)
    exact congrArg (fun r => Except.ok (some r)) (roundtrip_salt Salt.KCl s h0 h1)
  · show Except.ok (some (salinityFromX (xFromSalinity s Salt.MgCl2) Salt.MgCl2)) =
      Except.ok (some s)
    exact congrArg (fun r => Except.ok (some r)) (roundtrip_salt Salt.MgCl2 s h0 h1)

/-- C3 witness: the round-trip at NaCl, s = 7. -/
theorem c3_roundtrip_witness :
    (computeXFromSalinity 7 "NaCl").bind (fun x => computeSalinityFromX x "NaCl") =
      Except.ok (some 7) :=
  c3_roundtrip "NaCl" 7 (Or.inl rfl) (by norm_num) (by norm_num)

/-- C4: computeLnawFromDelta inverts computeDeltaT exactly whenever
1 + beta*lnaw*T0 is nonzero and the inverse's denominator
beta*T0*(T0 - dT) is nonzero. -/
theorem c4_inverse_consistency (beta lnaw T0 : ℚ) (h1 : 1 + beta * lnaw * T0 ≠ 0)
    (h2 : beta * T0 * (T0 - computeDeltaT beta lnaw T0) ≠ 0) :
    computeLnawFromDelta beta (computeDeltaT beta lnaw T0) T0 = lnaw := by
  have hbt := mul_ne_zero_iff.mp h2
  have hb := mul_ne_zero_iff.mp hbt.1
  have hTd : T0 - computeDeltaT beta lnaw T0 = T0 / (1 + beta * lnaw * T0) := by
    unfold computeDeltaT
    field_simp
    ring
  simp only [computeLnawFromDelta]
  rw [hTd]
  unfold computeDeltaT
  field_simp [hb.1, hb.2]
  ring

/-- C4 witness: the inverse consistency at beta = -1/1000, lnaw = -1/20,
T0 = 280. -/
theorem c4_inverse_consistency_witness :
    computeLnawFromDelta (-1/1000) (computeDeltaT (-1/1000) (-1/20) 280) 280 = -1/20 :=
  c4_inverse_consistency (-1/1000) (-1/20) 280 (by with_unfolding_all decide)
    (by with_unfolding_all decide)

/-- C5: the activity correlation is strictly decreasing on [0, 0.3]. -/
theorem c5_lnaw_strict_decreasing (X1 X2 : ℚ) (h0 : 0 ≤ X1) (h12 : X1 < X2)
    (h3 : X2 ≤ 3 / 10) :
    computeLnawFromX X2 < computeLnawFromX X1 :=
  computeLnawFromX_anti X1 X2 h12

/-- C5 witness: strict decrease between X = 0.1 and X = 0.3. -/
theorem c5_lnaw_strict_decreasing_witness :
    computeLnawFromX (3 / 10) < computeLnawFromX (1 / 10) :=
  c5_lnaw_strict_decreasing (1 / 10) (3 / 10) (by norm_num) (by norm_num) (by norm_num)

/-- C9 counterexample: "toString" is outside the catalog, yet the
conversion does not fail - `saltProps["toString"]` resolves to the
inherited `Object.prototype.toString`, the destructuring succeeds with
undefined fields, and the function returns NaN (a number-typed value,
modelled `Except.ok none`), not the UnknownSpecies error. -/
theorem c9_counterexample :
    ("toString" ≠ "NaCl" ∧ "toString" ≠ "KCl" ∧ "toString" ≠ "MgCl2") ∧
    computeXFromSalinity 5 "toString" = Except.ok none ∧
    computeXFromSalinity 5 "toString" ≠ Except.error CalcError.UnknownSpecies := by
  have he : computeXFromSalinity 5 "toString" = Except.ok none := rfl
  refine ⟨⟨by decide, by decide, by decide⟩, he, ?_⟩
  rw [he]
  intro h
  exact Except.noConfusion h

/-- C9 amended: for a salt key outside the catalog the conversion fails
with exactly the UnknownSpecies error when the key is not an inherited
Object.prototype property name; when it is such a name (toString,
constructor, valueOf, ...), the lookup resolves through the prototype
chain and the conversion returns NaN without failing. -/
theorem c9_amended (saltKey : String) (salinity : ℚ)
    (h : saltKey ≠ "NaCl" ∧ saltKey ≠ "KCl" ∧ saltKey ≠ "MgCl2") :
    (objectProtoKeys.contains saltKey = false →
      computeXFromSalinity salinity saltKey = Except.error CalcError.UnknownSpecies) ∧
    (objectProtoKeys.contains saltKey = true →
      computeXFromSalinity salinity saltKey = Except.ok none) := by
  have hp : parseSaltKey saltKey = none := by
    simp only [parseSaltKey, if_neg h.1, if_neg h.2.1, if_neg h.2.2]
  constructor
  · intro hc
    simp only [computeXFromSalinity, hp, hc, Bool.false_eq_true, if_false]
  · intro hc
    simp only [computeXFromSalinity, hp, hc, if_true]

/-- C9 witness: the non-catalog key LiBr fails with UnknownSpecies, while
the non-catalog prototype key toString returns NaN. -/
theorem c9_amended_witness :
    computeXFromSalinity 5 "LiBr" = Except.error CalcError.UnknownSpecies ∧
    computeXFromSalinity 5 "toString" = Except.ok none :=
  ⟨(c9_amended "LiBr" 5 ⟨by decide, by decide, by decide⟩).1 (by decide),
   (c9_amended "toString" 5 ⟨by decide, by decide, by decide⟩).2 (by decide)⟩

/-- Bisection preserves a bracket around any exact preimage of the
target, by strict antitonicity of the correlation. -/
theorem bisect_keeps (t x : ℚ) (hx : computeLnawFromX x = t) :
    ∀ (n : ℕ) (low high : ℚ), low ≤ x → x ≤ high →
      (bisect t n low high).1 ≤ x ∧ x ≤ (bisect t n low high).2 := by
  intro n
  induction n with
  | zero =>
    intro low high hl hh
    exact ⟨hl, hh⟩
  | succ n ih =>
    intro low high hl hh
    simp only [bisect]
    by_cases hc : computeLnawFromX ((low + high) / 2) - t > 0
    · rw [if_pos hc]
      apply ih
      · by_contra hcon
        push_neg at hcon
        have hlt := computeLnawFromX_anti_le x ((low + high) / 2) (le_of_lt hcon)
        rw [hx] at hlt
        linarith
      · exact hh
    · rw [if_neg hc]
      apply ih _ _ hl
      push_neg at hc
      by_contra hcon
      push_neg at hcon
      have hlt := computeLnawFromX_anti ((low + high) / 2) x hcon
      rw [hx] at hlt
      linarith

/-- Each bisection iteration halves the bracket width. -/
theorem bisect_width (t : ℚ) :
    ∀ (n : ℕ) (low high : ℚ),
      (bisect t n low high).2 - (bisect t n low high).1 = (high - low) / 2 ^ n := by
  intro n
  induction n with
  | zero =>
    intro low high
    simp [bisect]
  | succ n ih =>
    intro low high
    simp only [bisect]
    by_cases hc : computeLnawFromX ((low + high) / 2) - t > 0
    · rw [if_pos hc, ih, pow_succ]
      ring
    · rw [if_neg hc, ih, pow_succ]
      ring

/-- The bisection bracket stays inside the initial bracket. -/
theorem bisect_bounds (t : ℚ) :
    ∀ (n : ℕ) (low high : ℚ), low ≤ high →
      low ≤ (bisect t n low high).1 ∧ (bisect t n low high).1 ≤ (bisect t n low high).2 ∧
        (bisect t n low high).2 ≤ high := by
  intro n
  induction n with
  | zero =>
    intro low high h
    exact ⟨le_refl _, h, le_refl _⟩
  | succ n ih =>
    intro low high h
    simp only [bisect]
    by_cases hc : computeLnawFromX ((low + high) / 2) - t > 0
    · rw [if_pos hc]
      have hm : (low + high) / 2 ≤ high := by linarith
      obtain ⟨a, b, c⟩ := ih ((low + high) / 2) high hm
      exact ⟨by linarith, b, c⟩
    · rw [if_neg hc]
      have hm : low ≤ (low + high) / 2 := by linarith
      obtain ⟨a, b, c⟩ := ih low ((low + high) / 2) hm
      exact ⟨a, b, by linarith⟩

/-- The expansion loop never decreases the upper bound. -/
theorem expandHigh_le (t : ℚ) : ∀ (n : ℕ) (high : ℚ), high ≤ expandHigh t n high := by
  intro n
  induction n with
  | zero =>
    intro high
    exact le_refl _
  | succ n ih =>
    intro high
    simp only [expandHigh]
    by_cases hc : computeLnawFromX high - t > 0 ∧ high < 1
    · rw [if_pos hc]
      have := ih (high + 1 / 10)
      linarith
    · rw [if_neg hc]

/-- The expansion loop keeps the upper bound below 1.1. -/
theorem expandHigh_lt (t : ℚ) : ∀ (n : ℕ) (high : ℚ), high < 11 / 10 →
    expandHigh t n high < 11 / 10 := by
  intro n
  induction n with
  | zero =>
    intro high h
    exact h
  | succ n ih =>
    intro high h
    simp only [expandHigh]
    by_cases hc : computeLnawFromX high - t > 0 ∧ high < 1
    · rw [if_pos hc]
      exact ih _ (by linarith [hc.2])
    · rw [if_neg hc]
      exact h

/-- With enough fuel the expansion loop stops only when f(high) is
nonpositive or high has reached 1. -/
theorem expandHigh_stop (t : ℚ) : ∀ (n : ℕ) (high : ℚ),
    11 / 10 ≤ high + n * (1 / 10) →
    computeLnawFromX (expandHigh t n high) - t ≤ 0 ∨ 1 ≤ expandHigh t n high := by
  intro n
  induction n with
  | zero =>
    intro high h
    right
    simp only [expandHigh]
    push_cast at h
    linarith
  | succ n ih =>
    intro high h
    simp only [expandHigh]
    by_cases hc : computeLnawFromX high - t > 0 ∧ high < 1
    · rw [if_pos hc]
      apply ih
      push_cast at h ⊢
      linarith
    · rw [if_neg hc]
      by_cases hf : computeLnawFromX high - t ≤ 0
      · exact Or.inl hf
      · push_neg at hc hf
        exact Or.inr (hc hf)

/-- Starting from a multiple of 0.1 not exceeding 1, the expansion loop
never pushes the upper bound above 1. -/
theorem expandHigh_tenths (t : ℚ) : ∀ (n k : ℕ), k ≤ 10 →
    expandHigh t n ((k : ℚ) / 10) ≤ 1 := by
  intro n
  induction n with
  | zero =>
    intro k hk
    simp only [expandHigh]
    rw [div_le_one (by norm_num : (0:ℚ) < 10)]
    exact_mod_cast hk
  | succ n ih =>
    intro k hk
    simp only [expandHigh]
    by_cases hc : computeLnawFromX ((k : ℚ) / 10) - t > 0 ∧ (k : ℚ) / 10 < 1
    · rw [if_pos hc]
      have hklt : k < 10 := by
        have := (div_lt_one (by norm_num : (0:ℚ) < 10)).mp hc.2
        exact_mod_cast this
      have he : (k : ℚ) / 10 + 1 / 10 = ((k + 1 : ℕ) : ℚ) / 10 := by
        push_cast
        ring
      rw [he]
      exact ih (k + 1) (by omega)
    · rw [if_neg hc]
      rw [div_le_one (by norm_num : (0:ℚ) < 10)]
      exact_mod_cast hk

/-- The solver always returns a value in [0, 1]. -/
theorem solveXFromLnaw_bounds (t : ℚ) :
    0 ≤ solveXFromLnaw t ∧ solveXFromLnaw t ≤ 1 := by
  have h2 : ((2:ℕ):ℚ) / 10 = 2 / 10 := by norm_num
  have hhi1 : expandHigh t 9 (2 / 10) ≤ 1 := by
    have := expandHigh_tenths t 9 2 (by norm_num)
    rwa [h2] at this
  have hhi0 : (2 / 10 : ℚ) ≤ expandHigh t 9 (2 / 10) := expandHigh_le t 9 (2 / 10)
  obtain ⟨a, b, c⟩ := bisect_bounds t 50 0 (expandHigh t 9 (2 / 10)) (by linarith)
  simp only [solveXFromLnaw]
  constructor
  · linarith
  · linarith

/-- C6: for every X in (0, 0.3), the bisection root-finder applied to
lnaw(X) returns a value within 1e-6 of X (in fact within 1.1/2^51). -/
theorem c6_solver_accuracy (X : ℚ) (h0 : 0 < X) (h3 : X < 3 / 10) :
    |solveXFromLnaw (computeLnawFromX X) - X| ≤ 1 / 1000000 := by
  set t := computeLnawFromX X with ht
  have hstop := expandHigh_stop t 9 (2 / 10) (by norm_num)
  have hle := expandHigh_le t 9 (2 / 10)
  have hlt := expandHigh_lt t 9 (2 / 10) (by norm_num)
  have hXhi : X ≤ expandHigh t 9 (2 / 10) := by
    rcases hstop with hf | h1
    · by_contra hcon
      push_neg at hcon
      have hm := computeLnawFromX_anti (expandHigh t 9 (2 / 10)) X hcon
      rw [← ht] at hm
      linarith
    · linarith
  have hkeep := bisect_keeps t X rfl 50 0 (expandHigh t 9 (2 / 10)) (le_of_lt h0) hXhi
  have hwidth := bisect_width t 50 0 (expandHigh t 9 (2 / 10))
  have h2p : (0:ℚ) < 2 ^ 50 := by positivity
  have hwle : (bisect t 50 0 (expandHigh t 9 (2 / 10))).2 -
      (bisect t 50 0 (expandHigh t 9 (2 / 10))).1 ≤ (11 / 10) / 2 ^ 50 := by
    rw [hwidth]
    exact (div_le_div_iff_of_pos_right h2p).mpr (by linarith)
  have hnum : ((11 : ℚ) / 10) / 2 ^ 50 ≤ 2 / 1000000 := by norm_num
  simp only [solveXFromLnaw]
  rw [abs_le]
  obtain ⟨hl, hh⟩ := hkeep
  constructor
  · linarith
  · linarith


/-- C6 witness: solver accuracy at X = 0.1. -/
theorem c6_solver_accuracy_witness :
    |solveXFromLnaw (computeLnawFromX (1 / 10)) - 1 / 10| ≤ 1 / 1000000 :=
  c6_solver_accuracy (1 / 10) (by norm_num) (by norm_num)


/-- Characterization of one sweep step: a point is produced exactly when
the four guards of the loop body pass. -/
theorem sweepStep_isSome_iff (beta T0 dTInit dTmin stepSize s0 : ℚ) (salt : Salt) (i : ℕ) :
    (sweepStep beta T0 dTInit dTmin stepSize salt s0 i).isSome = true ↔
      (stepDTTotal dTInit dTmin stepSize i < T0 ∧
       stepLnawDen beta T0 dTInit dTmin stepSize i ≠ 0 ∧
       stepLnawMas beta T0 dTInit dTmin stepSize i < 0 ∧
       0 < stepMAS beta T0 dTInit dTmin stepSize salt i) := by
  simp only [sweepStep]
  split_ifs with h1 h2 h3 h4
  · simp only [Option.isSome_none, Bool.false_eq_true, false_iff]
    intro hc
    exact absurd h1 (not_le.mpr hc.1)
  · simp only [Option.isSome_none, Bool.false_eq_true, false_iff]
    intro hc
    exact hc.2.1 h2
  · simp only [Option.isSome_none, Bool.false_eq_true, false_iff]
    intro hc
    exact absurd h3 (not_le.mpr hc.2.2.1)
  · simp only [Option.isSome_none, Bool.false_eq_true, false_iff]
    intro hc
    exact absurd h4 (not_le.mpr hc.2.2.2)
  · simp only [Option.isSome_some, true_iff]
    exact ⟨not_le.mp h1, h2, not_le.mp h3, not_le.mp h4⟩

/-- Inversion of a produced sweep step: the emitted point's fields and the
guards that held. -/
theorem sweepStep_some_fields (beta T0 dTInit dTmin stepSize s0 : ℚ) (salt : Salt)
    (i : ℕ) (p : SweepPoint)
    (h : sweepStep beta T0 dTInit dTmin stepSize salt s0 i = some p) :
    p.totalSupercooling = stepDTTotal dTInit dTmin stepSize i ∧
    stepDTTotal dTInit dTmin stepSize i < T0 ∧
    p.mas = stepMAS beta T0 dTInit dTmin stepSize salt i ∧
    0 < p.mas ∧
    p.mwy = massBalanceMWY s0 p.mas ∧
    p.saltG = s0 ∧ p.waterG = 100 - s0 := by
  simp only [sweepStep] at h
  split_ifs at h with h1 h2 h3 h4
  obtain rfl := Option.some.inj h
  exact ⟨rfl, not_le.mp h1, rfl, not_le.mp h4, rfl, rfl, rfl⟩

/-- C7: a 1-D sweep step is emitted iff its total supercooling is strictly
below T0, the inverse lnaw is finite (nonzero denominator) and strictly
negative, and the resulting MAS is finite and strictly positive; every
emitted point's total supercooling is strictly below T0; and the sweep
fails with NoFeasiblePoints exactly when no step is emitted. -/
theorem c7_sweep_emission (beta T0 dTInit dTmin dTmax s0 : ℚ) (salt : Salt) :
    (∀ i : ℕ,
        (sweepStep beta T0 dTInit dTmin ((dTmax - dTmin) / 49) salt s0 i).isSome = true ↔
          (stepDTTotal dTInit dTmin ((dTmax - dTmin) / 49) i < T0 ∧
           stepLnawDen beta T0 dTInit dTmin ((dTmax - dTmin) / 49) i ≠ 0 ∧
           stepLnawMas beta T0 dTInit dTmin ((dTmax - dTmin) / 49) i < 0 ∧
           0 < stepMAS beta T0 dTInit dTmin ((dTmax - dTmin) / 49) salt i)) ∧
    (∀ p ∈ sweepPoints beta T0 dTInit dTmin dTmax salt s0, p.totalSupercooling < T0) ∧
    (sweepResult beta T0 dTInit dTmin dTmax salt s0 =
        Except.error CalcError.NoFeasiblePoints ↔
      ∀ i < 50, sweepStep beta T0 dTInit dTmin ((dTmax - dTmin) / 49) salt s0 i = none) := by
  have hiff : sweepPoints beta T0 dTInit dTmin dTmax salt s0 = [] ↔
      ∀ i < 50, sweepStep beta T0 dTInit dTmin ((dTmax - dTmin) / 49) salt s0 i = none := by
    rw [sweepPoints, List.filterMap_eq_nil_iff]
    constructor
    · intro h i hi
      exact h i (List.mem_range.mpr hi)
    · intro h a ha
      exact h a (List.mem_range.mp ha)
  refine ⟨sweepStep_isSome_iff beta T0 dTInit dTmin ((dTmax - dTmin) / 49) s0 salt, ?_, ?_⟩
  · intro p hp
    rw [sweepPoints, List.mem_filterMap] at hp
    obtain ⟨i, _, hstep⟩ := hp
    have hf := sweepStep_some_fields beta T0 dTInit dTmin ((dTmax - dTmin) / 49) s0 salt i p hstep
    rw [hf.1]
    exact hf.2.1
  · simp only [sweepResult]
    split_ifs with he
    · rw [List.isEmpty_iff] at he
      exact ⟨fun _ => hiff.mp he, fun _ => rfl⟩
    · constructor
      · intro h
        exact h.elim
      · intro hall
        exact absurd (List.isEmpty_iff.mpr (hiff.mpr hall)) he

/-- C7 witness: the per-step characterization instantiated at step 0 of a
concrete sweep. -/
theorem c7_sweep_emission_witness :
    (sweepStep 1 100 0 0 ((49 - (0:ℚ)) / 49) Salt.NaCl 8 0).isSome = true ↔
      (stepDTTotal 0 0 ((49 - (0:ℚ)) / 49) 0 < 100 ∧
       stepLnawDen 1 100 0 0 ((49 - (0:ℚ)) / 49) 0 ≠ 0 ∧
       stepLnawMas 1 100 0 0 ((49 - (0:ℚ)) / 49) 0 < 0 ∧
       0 < stepMAS 1 100 0 0 ((49 - (0:ℚ)) / 49) Salt.NaCl 0) :=
  (c7_sweep_emission 1 100 0 0 49 8 Salt.NaCl).1 0

/-- Catalog salinities never exceed 100 wt% for X in [0, 1]. -/
theorem salinityFromX_le_100 (X : ℚ) (salt : Salt) (h0 : 0 ≤ X) (h1 : X ≤ 1) :
    salinityFromX X salt ≤ 100 := by
  cases salt
  case NaCl =>
    show 58.44 * X * 100 / ((2 - 2 * X) * WATER_MOLAR_MASS + 58.44 * X) ≤ 100
    have hD : (0:ℚ) < (2 - 2 * X) * WATER_MOLAR_MASS + 58.44 * X := by
      norm_num [WATER_MOLAR_MASS]
      nlinarith
    rw [div_le_iff₀ hD]
    norm_num [WATER_MOLAR_MASS]
    nlinarith
  case KCl =>
    show 74.55 * X * 100 / ((2 - 2 * X) * WATER_MOLAR_MASS + 74.55 * X) ≤ 100
    have hD : (0:ℚ) < (2 - 2 * X) * WATER_MOLAR_MASS + 74.55 * X := by
      norm_num [WATER_MOLAR_MASS]
      nlinarith
    rw [div_le_iff₀ hD]
    norm_num [WATER_MOLAR_MASS]
    nlinarith
  case MgCl2 =>
    show 95.21 * X * 100 / ((4 - 3 * X) * WATER_MOLAR_MASS + 95.21 * X) ≤ 100
    have hD : (0:ℚ) < (4 - 3 * X) * WATER_MOLAR_MASS + 95.21 * X := by
      norm_num [WATER_MOLAR_MASS]
      nlinarith
    rw [div_le_iff₀ hD]
    norm_num [WATER_MOLAR_MASS]
    nlinarith

/-- Mass-balance MWY never exceeds 100 when 0 < mas ≤ 100 and
0 < s < 100. -/
theorem massBalanceMWY_le_100 (s mas : ℚ) (hs0 : 0 < s) (hs1 : s < 100)
    (hm0 : 0 < mas) (hm1 : mas ≤ 100) :
    massBalanceMWY s mas ≤ 100 := by
  have hw : (0:ℚ) < 100 - s := by linarith
  have hr : (1:ℚ) ≤ 100 / mas := by
    rw [le_div_iff₀ hm0]
    linarith
  simp only [massBalanceMWY]
  rw [div_mul_eq_mul_div, div_le_iff₀ hw]
  nlinarith

/-- Mass-balance MWY is nonnegative exactly when the candidate MAS is at
least the initial salinity. -/
theorem massBalanceMWY_nonneg_iff (s mas : ℚ) (hs1 : s < 100) (hm0 : 0 < mas) :
    0 ≤ massBalanceMWY s mas ↔ s ≤ mas := by
  have hw : (0:ℚ) < 100 - s := by linarith
  have he : massBalanceMWY s mas = 100 * 100 * (mas - s) / (mas * (100 - s)) := by
    simp only [massBalanceMWY]
    field_simp
    ring
  rw [he]
  have hd : (0:ℚ) < mas * (100 - s) := mul_pos hm0 hw
  rw [le_div_iff₀ hd, zero_mul]
  constructor
  · intro h
    nlinarith
  · intro h
    nlinarith

/-- C8 amended: the 1-D sweep never clamps (every emitted MWY is the raw
mass-balance value), every emitted MWY is at most 100, and an emitted MWY
is nonnegative exactly when the point's MAS is at least the initial
salinity - so MWY can leave [0,100] from below and no filtering occurs. -/
theorem c8_amended (beta T0 s0 dTmin dTmax : ℚ) (salt : Salt)
    (hs0 : 0 < s0) (hs1 : s0 < 100) :
    ∀ p ∈ calcSweep beta T0 salt s0 dTmin dTmax,
      p.mwy = massBalanceMWY s0 p.mas ∧ p.mwy ≤ 100 ∧ (0 ≤ p.mwy ↔ s0 ≤ p.mas) := by
  intro p hp
  rw [calcSweep, sweepPoints, List.mem_filterMap] at hp
  obtain ⟨i, _, hstep⟩ := hp
  have hf := sweepStep_some_fields _ _ _ _ _ _ _ _ _ hstep
  have hmas1 : p.mas ≤ 100 := by
    rw [hf.2.2.1]
    have hb := solveXFromLnaw_bounds (stepLnawMas beta T0
      (computeDeltaT beta (computeLnawFromX (xFromSalinity s0 salt)) T0) dTmin
      ((dTmax - dTmin) / 49) i)
    exact salinityFromX_le_100 _ salt hb.1 hb.2
  have hmas0 : 0 < p.mas := hf.2.2.2.1
  refine ⟨hf.2.2.2.2.1, ?_, ?_⟩
  · rw [hf.2.2.2.2.1]
    exact massBalanceMWY_le_100 s0 p.mas hs0 hs1 hmas0 hmas1
  · rw [hf.2.2.2.2.1]
    exact massBalanceMWY_nonneg_iff s0 p.mas hs1 hmas0

/-- Head of a nonempty list is a member. -/
theorem headI_mem_of_ne_nil {α : Type} [Inhabited α] {l : List α} (h : l ≠ []) :
    l.headI ∈ l := by
  cases l with
  | nil => exact absurd rfl h
  | cons a t => simp

set_option maxRecDepth 1000000 in
/-- C8 counterexample: at the valid operating condition gas = CP (fixed
T0 = 280.15 K at 0.1 MPa, effective beta = -1.2426e-3 with the alpha
correction off), salt = NaCl, initial salinity 8 wt%, supercooling range
[-3, -3], the sweep emits a point whose MWY is strictly negative - so not
every emitted point has MWY in [0,100]. -/
theorem c8_counterexample :
    computeBetaCustom "CP" false { struct := "sI", betaX := -1, data := [], t0Atm := none } =
      some (-1.2426 / 1000) ∧
    (getT0AtPressure emptyCaches "CP" (1 / 10) "poly"
        { struct := "sI", betaX := -1, data := [], t0Atm := none }).1 = some 280.15 ∧
    (calcSweep (-1.2426 / 1000) 280.15 Salt.NaCl 8 (-3) (-3)).head? ≠ none ∧
    (calcSweep (-1.2426 / 1000) 280.15 Salt.NaCl 8 (-3) (-3)).headI.mwy < 0 := by
  refine ⟨?_, ?_, ?_, ?_⟩
  · norm_num +decide [computeBetaCustom, getGasObject, gasData, ALPHA_SII]
  · norm_num +decide [getT0AtPressure, getGasObject, gasData]
  · with_unfolding_all decide
  · with_unfolding_all decide

set_option maxRecDepth 1000000 in
/-- C8 witness: the amended statement instantiated at the head point of
the concrete counterexample sweep. -/
theorem c8_amended_witness :
    (calcSweep (-1.2426 / 1000) 280.15 Salt.NaCl 8 (-3) (-3)).headI.mwy =
        massBalanceMWY 8 ((calcSweep (-1.2426 / 1000) 280.15 Salt.NaCl 8 (-3) (-3)).headI.mas) ∧
    (calcSweep (-1.2426 / 1000) 280.15 Salt.NaCl 8 (-3) (-3)).headI.mwy ≤ 100 ∧
    (0 ≤ (calcSweep (-1.2426 / 1000) 280.15 Salt.NaCl 8 (-3) (-3)).headI.mwy ↔
      8 ≤ (calcSweep (-1.2426 / 1000) 280.15 Salt.NaCl 8 (-3) (-3)).headI.mas) := by
  have hne : calcSweep (-1.2426 / 1000) 280.15 Salt.NaCl 8 (-3) (-3) ≠ [] := by
    have hs : (calcSweep (-1.2426 / 1000) 280.15 Salt.NaCl 8 (-3) (-3)).head? ≠ none := by
      with_unfolding_all decide
    intro hnil
    rw [hnil] at hs
    exact hs rfl
  exact c8_amended (-1.2426 / 1000) 280.15 8 (-3) (-3) Salt.NaCl (by norm_num)
    (by norm_num) _ (headI_mem_of_ne_nil hne)

/-- Evaluation of a heatmap cell inside the feasible band: MWY is the
clamped relative-MAS formula and MAS is the inverted candidate. -/
theorem heatmapCell_in_band (beta T0 : ℚ) (salt : Salt) (sInit Tform : ℚ)
    (h1 : cellDTInit beta T0 salt sInit ≤ cellDTTotal T0 Tform)
    (h2 : cellDTTotal T0 Tform < T0)
    (h3 : beta * T0 * (T0 - cellDTTotal T0 Tform) ≠ 0)
    (h4 : cellLnawMas beta T0 Tform < 0)
    (h5 : 0 < cellMAS beta T0 salt Tform) :
    heatmapCellMWY beta T0 salt sInit Tform =
      max 0 (min 100 ((cellMAS beta T0 salt Tform - sInit) /
        cellMAS beta T0 salt Tform * 100)) ∧
    heatmapCellMAS beta T0 salt sInit Tform = cellMAS beta T0 salt Tform := by
  constructor
  · simp only [heatmapCellMWY]
    rw [if_pos ⟨h1, h2⟩, if_pos ⟨h3, h4⟩, if_pos h5]
  · simp only [heatmapCellMAS]
    rw [if_pos ⟨h1, h2⟩, if_pos ⟨h3, h4⟩, if_pos h5]

set_option maxRecDepth 1000000 in
/-- C1 counterexample: the heatmap cell at gas CP (T0 = 280.15 K,
beta = -1.2426e-3), NaCl, sInit = 8 wt%, Tform = 272.15 K lies inside the
feasible band with a finite positive inverted MAS, yet its MWY (the
salinity-relative yield ((mas - 8)/mas)*100, about 36.07) differs from the
1-D sweep's mass-balance MWY at the same MAS and initial salinity (about
39.20). -/
theorem c1_counterexample :
    (cellDTInit (-1.2426 / 1000) 280.15 Salt.NaCl 8 ≤ cellDTTotal 280.15 272.15 ∧
     cellDTTotal 280.15 272.15 < 280.15 ∧
     (-1.2426 / 1000) * 280.15 * (280.15 - cellDTTotal 280.15 272.15) ≠ 0 ∧
     cellLnawMas (-1.2426 / 1000) 280.15 272.15 < 0 ∧
     0 < cellMAS (-1.2426 / 1000) 280.15 Salt.NaCl 272.15) ∧
    heatmapCellMWY (-1.2426 / 1000) 280.15 Salt.NaCl 8 272.15 ≠
      massBalanceMWY 8 (heatmapCellMAS (-1.2426 / 1000) 280.15 Salt.NaCl 8 272.15) := by
  have hcell : cellMAS (-1.2426 / 1000) 280.15 Salt.NaCl 272.15 =
      33325095169611378675000 / 2663213883567339601733 := by
    have hl : 33325095169611378675000 / 2663213883567339601733 ≤
        cellMAS (-1.2426 / 1000) 280.15 Salt.NaCl 272.15 := by
      with_unfolding_all decide
    have hr : cellMAS (-1.2426 / 1000) 280.15 Salt.NaCl 272.15 ≤
        33325095169611378675000 / 2663213883567339601733 := by
      with_unfolding_all decide
    exact le_antisymm hr hl
  have hc1 : cellDTInit (-1.2426 / 1000) 280.15 Salt.NaCl 8 ≤ cellDTTotal 280.15 272.15 := by
    with_unfolding_all decide
  have hc2 : cellDTTotal 280.15 272.15 < 280.15 := by
    with_unfolding_all decide
  have hc3 : (-1.2426 / 1000) * 280.15 * (280.15 - cellDTTotal 280.15 272.15) ≠ 0 :=
    ne_of_lt (by with_unfolding_all decide)
  have hc4 : cellLnawMas (-1.2426 / 1000) 280.15 272.15 < 0 := by
    with_unfolding_all decide
  have hc5 : 0 < cellMAS (-1.2426 / 1000) 280.15 Salt.NaCl 272.15 := by
    rw [hcell]
    norm_num
  obtain ⟨hmwy, hmas⟩ := heatmapCell_in_band (-1.2426 / 1000) 280.15 Salt.NaCl 8 272.15
    hc1 hc2 hc3 hc4 hc5
  refine ⟨⟨hc1, hc2, hc3, hc4, hc5⟩, ?_⟩
  rw [hmwy, hmas, hcell]
  norm_num [massBalanceMWY, max_def, min_def]

/-- C1 amended: inside the feasible band with finite positive inverted
MAS and sInit below 100, the heatmap cell's MWY equals the 1-D sweep's
mass-balance MWY scaled by (100 - sInit)/100 and clamped to [0,100] - not
the mass-balance MWY itself. -/
theorem c1_amended (beta T0 : ℚ) (salt : Salt) (sInit Tform : ℚ)
    (h1 : cellDTInit beta T0 salt sInit ≤ cellDTTotal T0 Tform)
    (h2 : cellDTTotal T0 Tform < T0)
    (h3 : beta * T0 * (T0 - cellDTTotal T0 Tform) ≠ 0)
    (h4 : cellLnawMas beta T0 Tform < 0)
    (h5 : 0 < cellMAS beta T0 salt Tform)
    (h6 : sInit ≠ 100) :
    heatmapCellMWY beta T0 salt sInit Tform =
      max 0 (min 100 (massBalanceMWY sInit (cellMAS beta T0 salt Tform) *
        ((100 - sInit) / 100))) := by
  rw [(heatmapCell_in_band beta T0 salt sInit Tform h1 h2 h3 h4 h5).1]
  have hm : massBalanceMWY sInit (cellMAS beta T0 salt Tform) * ((100 - sInit) / 100) =
      (cellMAS beta T0 salt Tform - sInit) / cellMAS beta T0 salt Tform * 100 := by
    simp only [massBalanceMWY]
    field_simp [ne_of_gt h5, sub_ne_zero.mpr (Ne.symm h6)]
    ring
  rw [hm]

set_option maxRecDepth 1000000 in
/-- C1 witness: the amended cell formula at the concrete counterexample
cell. -/
theorem c1_amended_witness :
    heatmapCellMWY (-1.2426 / 1000) 280.15 Salt.NaCl 8 272.15 =
      max 0 (min 100 (massBalanceMWY 8 (cellMAS (-1.2426 / 1000) 280.15 Salt.NaCl 272.15) *
        ((100 - 8) / 100))) :=
  c1_amended (-1.2426 / 1000) 280.15 Salt.NaCl 8 272.15 (by with_unfolding_all decide)
    (by with_unfolding_all decide) (ne_of_lt (by with_unfolding_all decide))
    (by with_unfolding_all decide) (by with_unfolding_all decide) (by norm_num)


/-- Elimination steps never fail: the pivot substitution makes the divisor
nonzero, so the guarded division is always taken. -/
theorem elimStep_ne_none (d : ℕ) (st : List (List ℚ) × List ℚ) (i : ℕ) :
    elimStep d st i ≠ none := by
  simp only [elimStep]
  split_ifs with h1 h2
  · norm_num at h2
  · simp
  · simp

/-- Elimination steps preserve the length of the right-hand-side vector. -/
theorem elimStep_snd_length (d : ℕ) (st : List (List ℚ) × List ℚ) (i : ℕ)
    (st2 : List (List ℚ) × List ℚ) (h : elimStep d st i = some st2) :
    st2.2.length = st.2.length := by
  simp only [elimStep] at h
  split_ifs at h
  all_goals obtain rfl := Option.some.inj h
  all_goals simp [List.length_mapIdx, List.length_set]

/-- The whole elimination fold succeeds and preserves the vector length. -/
theorem foldlM_elimStep (d : ℕ) :
    ∀ (l : List ℕ) (st : List (List ℚ) × List ℚ),
      ∃ st2, l.foldlM (elimStep d) st = some st2 ∧ st2.2.length = st.2.length := by
  intro l
  induction l with
  | nil =>
    intro st
    exact ⟨st, rfl, rfl⟩
  | cons a l ih =>
    intro st
    rw [List.foldlM_cons]
    cases helim : elimStep d st a with
    | none => exact absurd helim (elimStep_ne_none d st a)
    | some st1 =>
      obtain ⟨st2, h2, hl⟩ := ih st1
      refine ⟨st2, ?_, ?_⟩
      · simpa using h2
      · rw [hl, elimStep_snd_length d st a st1 helim]

/-- C10 counterexample: on the empty sample list the fit raises (the JS
code executes new Array(-1), a RangeError), so it is not total on every
input list. -/
theorem c10_counterexample : fitPolynomial [] [] 3 = none := rfl

/-- C10 amended: for every nonempty sample list (repeated or degenerate
abscissas included) and every requested degree, the Gaussian elimination
never divides by zero (every division in the model is guarded and the
1e-12 pivot fallback makes the divisor nonzero) and the fit returns a
coefficient array of length min(degree, n-1) + 1. -/
theorem c10_amended (xs ys : List ℚ) (degree : ℕ) (h : xs ≠ []) :
    (fitPolynomial xs ys degree).map List.length =
      some (min degree (xs.length - 1) + 1) := by
  simp only [fitPolynomial]
  rw [if_neg (fun hh => h (List.length_eq_zero.mp hh))]
  obtain ⟨st2, hfold, hlen⟩ := foldlM_elimStep (min degree (xs.length - 1))
    (List.range (min degree (xs.length - 1) + 1))
    (normalMatrix (powerSums xs (min degree (xs.length - 1))) (min degree (xs.length - 1)),
     momentVector xs ys (min degree (xs.length - 1)))
  rw [hfold]
  simp only [Option.map_some']
  simp [hlen, momentVector]

/-- C10 witness: the fit on two samples with requested degree 3 returns
min(3, 1) + 1 = 2 coefficients. -/
theorem c10_amended_witness :
    (fitPolynomial [1, 2] [3, 4] 3).map List.length = some 2 := by
  have h := c10_amended [1, 2] [3, 4] 3 (by simp)
  simpa using h

/-- C2 counterexample: a first Custom-gas polynomial-method call caches
the fit, a first spline-method call does the same in the spline cache,
and a second polynomial call with different points returns the first
call's T0 (280, the cached constant fit) rather than the fit of its own
points (290) - both fit caches hold Custom entries and the result
depends on earlier calls. -/
theorem c2_counterexample :
    (getT0AtPressure emptyCaches "Custom" 5 "poly"
        { struct := "sI", betaX := -1, data := [(280, 5)], t0Atm := none }).2.poly.lookup
      "Custom" ≠ none ∧
    (getT0AtPressure emptyCaches "Custom" 5 "spline"
        { struct := "sI", betaX := -1, data := [(280, 5)], t0Atm := none }).2.spline.lookup
      "Custom" ≠ none ∧
    (getT0AtPressure
        (getT0AtPressure emptyCaches "Custom" 5 "poly"
          { struct := "sI", betaX := -1, data := [(280, 5)], t0Atm := none }).2
        "Custom" 5 "poly"
        { struct := "sI", betaX := -1, data := [(290, 5)], t0Atm := none }).1 = some 280 ∧
    (getT0AtPressure emptyCaches "Custom" 5 "poly"
        { struct := "sI", betaX := -1, data := [(290, 5)], t0Atm := none }).1 = some 290 ∧
    (280 : ℚ) ≠ 290 := by
  refine ⟨?_, ?_, ?_, ?_, by norm_num⟩
  · with_unfolding_all decide
  · with_unfolding_all decide
  · with_unfolding_all decide
  · with_unfolding_all decide

/-- C2 amended: once a fit cache holds an entry for the Custom gas, a
call with that fit method returns the cached fit evaluated at the
requested pressure and leaves both caches unchanged, ignoring the points
supplied at that call (they are only required to be nonempty) - for the
polynomial method via t0FitCache and for the spline method via the
spline cache alike. -/
theorem c2_amended (caches : FitCaches) (P : ℚ) (custom : GasEntry)
    (hdata : custom.data ≠ []) :
    (∀ coeffs, caches.poly.lookup "Custom" = some coeffs →
      getT0AtPressure caches "Custom" P "poly" custom =
        (some (evalPolynomial coeffs P), caches)) ∧
    (∀ sp, caches.spline.lookup "Custom" = some sp →
      getT0AtPressure caches "Custom" P "spline" custom =
        (some (evalMonotoneSpline sp P), caches)) := by
  have hg : getGasObject "Custom" custom = some custom := rfl
  constructor
  · intro coeffs hcache
    simp only [getT0AtPressure, hg]
    rw [if_neg (by decide : ¬("Custom" = "CP"))]
    rw [if_neg (fun hh => hdata (List.isEmpty_iff.mp hh))]
    rw [if_neg (by decide : ¬("poly" = "spline"))]
    rw [hcache]
  · intro sp hcache
    simp only [getT0AtPressure, hg]
    rw [if_neg (by decide : ¬("Custom" = "CP"))]
    rw [if_neg (fun hh => hdata (List.isEmpty_iff.mp hh))]
    rw [if_pos trivial]
    rw [hcache]

/-- C2 witness: caches holding a constant polynomial fit [280] and a
one-knot spline for Custom are returned unchanged, with the cached T0,
by calls of each method whose own points say 290. -/
theorem c2_amended_witness :
    getT0AtPressure
        { poly := [("Custom", [280])],
          spline := [("Custom", { x := [5], y := [280], h := [], d := [0] })] }
        "Custom" 5 "poly"
        { struct := "sI", betaX := -1, data := [(290, 5)], t0Atm := none } =
      (some (evalPolynomial [280] 5),
        { poly := [("Custom", [280])],
          spline := [("Custom", { x := [5], y := [280], h := [], d := [0] })] }) ∧
    getT0AtPressure
        { poly := [("Custom", [280])],
          spline := [("Custom", { x := [5], y := [280], h := [], d := [0] })] }
        "Custom" 5 "spline"
        { struct := "sI", betaX := -1, data := [(290, 5)], t0Atm := none } =
      (some (evalMonotoneSpline { x := [5], y := [280], h := [], d := [0] } 5),
        { poly := [("Custom", [280])],
          spline := [("Custom", { x := [5], y := [280], h := [], d := [0] })] }) :=
  ⟨(c2_amended
      { poly := [("Custom", [280])],
        spline := [("Custom", { x := [5], y := [280], h := [], d := [0] })] } 5
      { struct := "sI", betaX := -1, data := [(290, 5)], t0Atm := none }
      (by simp)).1 [280] (by simp),
   (c2_amended
      { poly := [("Custom", [280])],
        spline := [("Custom", { x := [5], y := [280], h := [], d := [0] })] } 5
      { struct := "sI", betaX := -1, data := [(290, 5)], t0Atm := none }
      (by simp)).2 { x := [5], y := [280], h := [], d := [0] } (by simp)⟩

end HLS
